import Mathlib

/-!
Shallow embedding of the pick engine (`engine/pick_engine.py`) and the
ingestion layer (`data/vlrgg_client.py`) of the `hackathon-2025` repository.

Conventions of the embedding:
* Python floats are modelled as exact rationals (`ℚ`) throughout the engine
  arithmetic; the single transcendental step (`math.erf` inside
  `_edge_to_probability_over`) is modelled over `ℝ` with the mathematical
  error function, defined by its integral.
* Python's `round` (banker's rounding, round-half-to-even) is modelled by
  `pyRound`.
* The string-typed enumerations `Literal["safe","standard","yolo"]` and the
  two stat categories iterated by `build_picks` are modelled as inductive
  types; the recommendation / confidence labels stay `String`s as in the
  source.
* f-string interpolation in `_explain_pick` is abstracted: the composed
  explanation is modelled as a record holding every interpolated value and
  every branch outcome (direction word, consistency phrase, probability
  sentence variant with its cited figure, risk label), in the order the
  source concatenates them.
-/

/-- The two stat categories the engine iterates over (`("kills", "assists")`
in `build_picks`); the source passes them as strings. -/
inductive StatType where
  | kills
  | assists
deriving DecidableEq

/-- Embeds `RiskMode = Literal["safe", "standard", "yolo"]` from the source. -/
inductive RiskMode where
  | safe
  | standard
  | yolo
deriving DecidableEq

/-- The cleaned player dictionary produced by
`data.vlrgg_client.build_players_from_stats`. -/
structure Player where
  id : String
  handle : String
  team : String
  role : String
  kills_per_map : ℚ
  assists_per_map : ℚ
  rating : ℚ
  kast : ℚ
  maps_played : ℤ
  consistency : ℚ
deriving DecidableEq

/-- Python's built-in `round` on an exact value: round half to even. -/
def pyRound (q : ℚ) : ℤ :=
  let f := ⌊q⌋
  let frac := q - (f : ℚ)
  if frac < 1/2 then f
  else if 1/2 < frac then f + 1
  else if f % 2 = 0 then f else f + 1

/-- Embeds `_projection_for_stat` (pick_engine.py, lines 53–90):
`projection = base + a*(rating - 1.0) + b*(kast - 0.72)`, floored at 0,
with `(a, b) = (4.0, 10.0)` for kills and `(2.5, 6.0)` for assists. -/
def _projection_for_stat (player : Player) (stat_type : StatType) : ℚ :=
  let base_kills := player.kills_per_map
  let base_assists := player.assists_per_map
  let rating := player.rating
  let kast := player.kast
  let baseline_rating : ℚ := 1
  let baseline_kast : ℚ := 72/100
  let dr := rating - baseline_rating
  let dk := kast - baseline_kast
  let proj :=
    if stat_type = StatType.kills then base_kills + 4 * dr + 10 * dk
    else base_assists + (5/2) * dr + 6 * dk
  max 0 proj

/-- Embeds `_line_for_stat` (pick_engine.py, lines 93–112): kills line is
`round(base) + 0.5`; assists line is `max(0.5, round(base) - 0.5)`. -/
def _line_for_stat (player : Player) (stat_type : StatType) : ℚ :=
  if stat_type = StatType.kills then
    (pyRound player.kills_per_map : ℚ) + 1/2
  else
    max (1/2) ((pyRound player.assists_per_map : ℚ) - 1/2)

/-- Embeds `_spread_for_stat` (pick_engine.py, lines 115–137): base 3.0 (kills) or
2.0 (assists), scaled by `1 - 0.3 * consistency`, floored at 0.5. -/
def _spread_for_stat (player : Player) (stat_type : StatType) : ℚ :=
  let cons := player.consistency
  let base : ℚ := if stat_type = StatType.kills then 3 else 2
  let adj := base * (1 - (3/10) * cons)
  max (1/2) adj

/-- Embeds `_edge_score` (pick_engine.py, lines 143–154):
`(projection - line) / spread`, with spread defensively replaced by 0.5
when `spread <= 0`. -/
def _edge_score (projection line_value spread : ℚ) : ℚ :=
  let spread' := if spread ≤ 0 then 1/2 else spread
  (projection - line_value) / spread'

/-- Embeds `_recommendation_from_edge` (pick_engine.py, lines 174–200): threshold
table by risk mode and stat type, then a three-way comparison. -/
def _recommendation_from_edge (edge : ℚ) (risk_mode : RiskMode)
    (stat_type : StatType) : String :=
  let thr_pair : ℚ × ℚ :=
    match risk_mode with
    | RiskMode.safe => (1, 9/10)
    | RiskMode.standard => (7/10, 6/10)
    | RiskMode.yolo => (4/10, 35/100)
  let thr := if stat_type = StatType.kills then thr_pair.1 else thr_pair.2
  if thr ≤ edge then "Lean Over"
  else if edge ≤ -thr then "Lean Under"
  else "Stay Away"

/-- The threshold table of `_recommendation_from_edge`, as a standalone
function for stating the classifier's contract. -/
def threshold (risk_mode : RiskMode) (stat_type : StatType) : ℚ :=
  let thr_pair : ℚ × ℚ :=
    match risk_mode with
    | RiskMode.safe => (1, 9/10)
    | RiskMode.standard => (7/10, 6/10)
    | RiskMode.yolo => (4/10, 35/100)
  if stat_type = StatType.kills then thr_pair.1 else thr_pair.2

/-- Embeds `_confidence_from_edge` (pick_engine.py, lines 203–218):
High when `|edge| >= 1.5`, Medium when `0.8 <= |edge| < 1.5`, else Low. -/
def _confidence_from_edge (edge : ℚ) : String :=
  let mag := |edge|
  if 3/2 ≤ mag then "High"
  else if 8/10 ≤ mag then "Medium"
  else "Low"

/-- The Gauss error function, the mathematical meaning of `math.erf`:
`erf x = (2/√π) · ∫ t in 0..x, exp (-t²)`. -/
noncomputable def erf (x : ℝ) : ℝ :=
  (2 / Real.sqrt Real.pi) * ∫ t in (0:ℝ)..x, Real.exp (-t ^ 2)

/-- Embeds `_edge_to_probability_over` (pick_engine.py, lines 157–168):
`prob = 0.5 * (1.0 + erf (z / sqrt 2))`, clipped to `[0.01, 0.99]`. -/
noncomputable def _edge_to_probability_over (edge : ℝ) : ℝ :=
  let z := edge
  let prob := (1/2) * (1 + erf (z / Real.sqrt 2))
  max (1/100) (min (99/100) prob)

/-- The probability sentence of `_explain_pick` (pick_engine.py, lines
268–284): either a sentence citing a percentage chance to go over, a
sentence citing a percentage chance to stay under, or the fixed
"close to a coin flip" sentence carrying no probability figure. -/
inductive ProbText where
  | overChance (pct : ℝ)
  | underChance (pct : ℝ)
  | coinFlip

/-- The explanation string assembled by `_explain_pick`
(pick_engine.py, lines 224–292), modelled structurally: one field per
interpolated value and per branch outcome, in the order the source
concatenates `base + context + prob_text + rec_text`. -/
structure Explanation where
  handle : String
  team : String
  role : String
  base_val : ℚ
  maps_played : ℤ
  stat_type : StatType
  projection : ℚ
  line_value : ℚ
  direction : String
  lean_by : ℚ
  rating : ℚ
  kast : ℚ
  consistency_phrase : String
  prob_text : ProbText
  risk_label : String
  recommendation : String
  edge : ℚ

/-- Embeds `_explain_pick` (pick_engine.py, lines 224–292). -/
noncomputable def _explain_pick (player : Player) (stat_type : StatType)
    (line_value projection edge : ℚ) (probability_over : ℝ)
    (recommendation : String) (risk_mode : RiskMode) : Explanation :=
  let maps := player.maps_played
  let rating := player.rating
  let kast := player.kast
  let base_val :=
    if stat_type = StatType.kills then player.kills_per_map
    else player.assists_per_map
  let direction := if line_value < projection then "over" else "under"
  let risk_label :=
    match risk_mode with
    | RiskMode.safe => "conservative"
    | RiskMode.standard => "balanced"
    | RiskMode.yolo => "aggressive"
  let prob_over_pct := probability_over * 100
  let prob_text :=
    if recommendation = "Lean Over" then ProbText.overChance prob_over_pct
    else if recommendation = "Lean Under" then
      ProbText.underChance (100 - prob_over_pct)
    else ProbText.coinFlip
  let consistency_phrase :=
    if 78/100 ≤ kast then "high consistency" else "some volatility"
  { handle := player.handle
    team := player.team
    role := player.role
    base_val := base_val
    maps_played := maps
    stat_type := stat_type
    projection := projection
    line_value := line_value
    direction := direction
    lean_by := |projection - line_value|
    rating := rating
    kast := kast
    consistency_phrase := consistency_phrase
    prob_text := prob_text
    risk_label := risk_label
    recommendation := recommendation
    edge := edge }

/-- The `PickResult` dataclass (pick_engine.py, lines 23–47). -/
structure PickResult where
  player_id : String
  player_handle : String
  team_name : String
  role : String
  stat_type : StatType
  line_value : ℚ
  projected_value : ℚ
  edge : ℚ
  probability_over : ℝ
  recommendation : String
  confidence : String
  explanation : Explanation
  raw_player : Player

/-- The body of the inner loop of `build_picks` (pick_engine.py, lines
322–373): one `PickResult` for one player and one stat category. -/
noncomputable def mk_pick (player : Player) (stat_type : StatType)
    (risk_mode : RiskMode) : PickResult :=
  let projection := _projection_for_stat player stat_type
  let line_value := _line_for_stat player stat_type
  let spread := _spread_for_stat player stat_type
  let edge := _edge_score projection line_value spread
  let prob_over := _edge_to_probability_over (edge : ℝ)
  let rec_label := _recommendation_from_edge edge risk_mode stat_type
  let conf := _confidence_from_edge edge
  let explanation :=
    _explain_pick player stat_type line_value projection edge prob_over
      rec_label risk_mode
  { player_id := player.id
    player_handle := player.handle
    team_name := player.team
    role := player.role
    stat_type := stat_type
    line_value := line_value
    projected_value := projection
    edge := edge
    probability_over := prob_over
    recommendation := rec_label
    confidence := conf
    explanation := explanation
    raw_player := player }

/-- Embeds `build_picks` (pick_engine.py, lines 298–377), taking the already-built
player records as input (the HTTP fetch of lines 313–316 is I/O outside
the scoring core): one pick per player per category, then sorted by
absolute edge, largest first. -/
noncomputable def build_picks (players : List Player)
    (risk_mode : RiskMode) : List PickResult :=
  let picks := players.flatMap fun player =>
    [mk_pick player StatType.kills risk_mode,
     mk_pick player StatType.assists risk_mode]
  picks.mergeSort fun a b => decide (|b.edge| ≤ |a.edge|)

/-- A raw field value from a vlrggapi stats row: either a string/number
that parses to a numeric value (`val`), or a missing key / unparseable
value (`bad`), which in the source makes `float(str(x))` raise or the
`row.get` default kick in. -/
inductive Raw where
  | val (q : ℚ)
  | bad
deriving DecidableEq

/-- Embeds `_float_safe` (vlrgg_client.py, lines 62–74): parse to float, or the
given default on any failure. -/
def _float_safe (x : Raw) (default : ℚ) : ℚ :=
  match x with
  | Raw.val q => q
  | Raw.bad => default

/-- Embeds `_parse_kast` (vlrgg_client.py, lines 77–87): strip the percent sign,
parse, divide by 100; fall back to 0.70 on failure.  Note: the parsed
value is NOT clamped to [0, 1]. -/
def _parse_kast (kast_raw : Raw) : ℚ :=
  match kast_raw with
  | Raw.val q => q / 100
  | Raw.bad => 70/100

/-- The `AGENT_TO_ROLE` table (vlrgg_client.py, lines 24–60), as a lookup
on lowercase agent names. -/
def AGENT_TO_ROLE : List (String × String) :=
  [("jett", "duelist"), ("neon", "duelist"), ("raze", "duelist"),
   ("yoru", "duelist"), ("iso", "duelist"), ("reyna", "duelist"),
   ("waylay", "duelist"), ("pheonix", "duelist"),
   ("omen", "controller"), ("clove", "controller"), ("viper", "controller"),
   ("brimstone", "controller"), ("harbor", "controller"), ("astra", "controller"),
   ("gekko", "initiator"), ("sova", "initiator"), ("fade", "initiator"),
   ("kayo", "initiator"), ("breach", "initiator"), ("skye", "initiator"),
   ("tejo", "initiator"),
   ("cypher", "sentinels"), ("killjoy", "sentinels"), ("vyse", "sentinels"),
   ("deadlock", "sentinels"), ("sage", "sentinels"), ("chamber", "sentinels"),
   ("veto", "sentinels")]

/-- Embeds `AGENT_TO_ROLE.get(name)` of the source. -/
def lookupRole (name : String) : Option String :=
  (AGENT_TO_ROLE.find? fun p => p.1 == name).map Prod.snd

/-- The `roles_seen` accumulation loop of `_infer_role_from_agents`
(vlrgg_client.py, lines 123–128): collect recognized roles in first-seen
order without duplicates. -/
def rolesSeen (agent_names : List String) : List String :=
  agent_names.foldl
    (fun acc name =>
      match lookupRole name with
      | some role => if role ∈ acc then acc else acc ++ [role]
      | none => acc)
    []

/-- Embeds `_infer_role_from_agents` (vlrgg_client.py, lines 89–138), with the
comma/slash splitting of the raw agents field already done: the input is
`none` for a missing/falsy value, or the list of raw name parts. -/
def _infer_role_from_agents (agents_raw : Option (List String)) : String :=
  match agents_raw with
  | none => "Unknown"
  | some parts =>
    let agent_names :=
      ((parts.map String.trim).filter fun s => s ≠ "").map
        fun s => s.toLower
    if agent_names = [] then "Unknown"
    else
      match rolesSeen agent_names with
      | [] => "Unknown"
      | [r] => r
      | _ => "Flex"

/-- One row of the vlrggapi `/stats` segments, with the raw fields
consumed by `build_players_from_stats`. -/
structure Row where
  player : String
  org : String
  rating : Raw
  kills_per_round : Raw
  assists_per_round : Raw
  kill_assists_survived_traded : Raw
  rounds_played : Raw
  agents : Option (List String)

/-- Embeds `re.sub(r"[^a-z0-9]+", "", raw_id)`: drop every character outside
`a`–`z` and `0`–`9`. -/
def cleanId (s : String) : String :=
  String.mk (s.toList.filter fun c =>
    (('a' ≤ c ∧ c ≤ 'z') ∨ ('0' ≤ c ∧ c ≤ '9')))

/-- The per-row body of the loop in `build_players_from_stats`
(vlrgg_client.py, lines 213–276). -/
def build_player_from_row (row : Row) : Player :=
  let handle := row.player.trim
  let team := if row.org.trim = "" then "Unknown" else row.org.trim
  let raw_id := (team ++ "_" ++ handle).toLower
  let player_id :=
    if cleanId raw_id = "" then handle.toLower else cleanId raw_id
  let rating := _float_safe row.rating 1
  let kpr := _float_safe row.kills_per_round (8/10)
  let apr := _float_safe row.assists_per_round (3/10)
  let kast := _parse_kast row.kill_assists_survived_traded
  let kills_per_map := kpr * 22
  let assists_per_map := apr * 22
  let rounds_played := _float_safe row.rounds_played (22 * 10)
  let maps_played := max 1 (pyRound (rounds_played / 22))
  let consistency :=
    max 0 (min 1
      ((1/2) * (kast - 65/100) / (15/100) + (1/2) * (rating - 9/10) / (4/10)))
  let role := _infer_role_from_agents row.agents
  { id := player_id
    handle := handle
    team := team
    role := role
    kills_per_map := kills_per_map
    assists_per_map := assists_per_map
    rating := rating
    kast := kast
    maps_played := maps_played
    consistency := consistency }

/-- Embeds `build_players_from_stats` (vlrgg_client.py, lines 176–278): sort rows
by parsed rating descending, keep the top 40, build a player per row. -/
def build_players_from_stats (rows : List Row) : List Player :=
  let withRating := rows.map fun r => (r, _float_safe r.rating 1)
  let sorted := withRating.mergeSort fun a b => decide (b.2 ≤ a.2)
  (sorted.take 40).map fun p => build_player_from_row p.1

/-- A concrete player record matching the worked example of the spec:
kills baseline 20, rating 1.3, KAST 0.85, consistency 0.5. -/
def samplePlayer : Player :=
  { id := "sensample"
    handle := "Sample"
    team := "SEN"
    role := "duelist"
    kills_per_map := 20
    assists_per_map := 5
    rating := 13/10
    kast := 85/100
    maps_played := 10
    consistency := 1/2 }

/-- A stats row whose raw KAST field reads "150%", i.e. parses to the
number 150: out of the usual 0–100 percent range but perfectly
parseable, so `_parse_kast` returns 1.5. -/
def row150 : Row :=
  { player := "Zed"
    org := "SEN"
    rating := Raw.val (13/10)
    kills_per_round := Raw.val (8/10)
    assists_per_round := Raw.val (3/10)
    kill_assists_survived_traded := Raw.val 150
    rounds_played := Raw.val 220
    agents := none }

/-- Fact: `round` of an exact integer is that integer. -/
theorem pyRound_intCast (n : ℤ) : pyRound (n : ℚ) = n := by
  norm_num [pyRound]

/-- Fact: `round 20 = 20` over the rationals (Python's `round(20.0)`). -/
theorem pyRound_twenty : pyRound (20 : ℚ) = 20 := by
  have h := pyRound_intCast 20
  norm_num at h
  exact h

/-- The three-way branch of `_recommendation_from_edge` characterized
against a positive threshold. -/
lemma rec_ite_characterization (e thr : ℚ) (hthr : 0 < thr) :
    ((if thr ≤ e then "Lean Over"
      else if e ≤ -thr then "Lean Under" else "Stay Away") = "Lean Over" ↔
      thr ≤ e) ∧
    ((if thr ≤ e then "Lean Over"
      else if e ≤ -thr then "Lean Under" else "Stay Away") = "Lean Under" ↔
      e ≤ -thr) ∧
    ((if thr ≤ e then "Lean Over"
      else if e ≤ -thr then "Lean Under" else "Stay Away") = "Stay Away" ↔
      (-thr < e ∧ e < thr)) := by
  split_ifs with h1 h2 <;>
    refine ⟨?_, ?_, ?_⟩ <;> simp_all <;>
    first
      | linarith
      | (constructor <;> intro <;> linarith)
      | (refine ⟨by linarith, by linarith⟩)

/-- Every entry of the threshold table is strictly positive. -/
lemma threshold_pos (r : RiskMode) (s : StatType) : 0 < threshold r s := by
  cases r <;> cases s <;> simp [threshold] <;> norm_num

/-- Rewrites `_recommendation_from_edge` through the `threshold` table. -/
lemma rec_eq_ite (edge : ℚ) (r : RiskMode) (s : StatType) :
    _recommendation_from_edge edge r s =
      (if threshold r s ≤ edge then "Lean Over"
       else if edge ≤ -threshold r s then "Lean Under" else "Stay Away") := by
  cases r <;> cases s <;> simp [_recommendation_from_edge, threshold]

/-- C1: for a player with kills baseline 20, rating 1.3, KAST 0.85 and
consistency 0.5: projection 22.5, kills line 20.5, spread 2.55,
edge 2/2.55 = 40/51 ≈ 0.784, recommendation "Lean Over" under the
standard posture, and confidence "Low" (40/51 < 0.8). -/
theorem C1_pipeline_concrete_example (player : Player)
    (hk : player.kills_per_map = 20) (hr : player.rating = 13/10)
    (hs : player.kast = 85/100) (hc : player.consistency = 1/2) :
    _projection_for_stat player StatType.kills = 45/2 ∧
    _line_for_stat player StatType.kills = 41/2 ∧
    _spread_for_stat player StatType.kills = 51/20 ∧
    _edge_score (45/2) (41/2) (51/20) = 40/51 ∧
    _recommendation_from_edge (40/51) RiskMode.standard StatType.kills =
      "Lean Over" ∧
    _confidence_from_edge (40/51) = "Low" := by
  refine ⟨?_, ?_, ?_, ?_, ?_, ?_⟩
  · simp only [_projection_for_stat, hk, hr, hs]
    norm_num
  · simp only [_line_for_stat, hk, pyRound_twenty]
    norm_num
  · simp only [_spread_for_stat, hc]
    norm_num
  · simp only [_edge_score]
    norm_num
  · simp only [_recommendation_from_edge]
    norm_num
  · simp only [_confidence_from_edge]
    rw [abs_of_pos (by norm_num)]
    norm_num

/-- Witness for C1 at the concrete sample player. -/
theorem C1_pipeline_concrete_example_witness :
    _projection_for_stat samplePlayer StatType.kills = 45/2 ∧
    _line_for_stat samplePlayer StatType.kills = 41/2 ∧
    _spread_for_stat samplePlayer StatType.kills = 51/20 ∧
    _edge_score (45/2) (41/2) (51/20) = 40/51 ∧
    _recommendation_from_edge (40/51) RiskMode.standard StatType.kills =
      "Lean Over" ∧
    _confidence_from_edge (40/51) = "Low" :=
  C1_pipeline_concrete_example samplePlayer rfl rfl rfl rfl

/-- C3: the Recommendation Classifier returns "Lean Over" iff
`edge ≥ threshold`, "Lean Under" iff `edge ≤ -threshold`, "Stay Away"
otherwise; the kills threshold strictly exceeds the assists threshold at
every posture, and thresholds strictly decrease from safe to standard to
yolo. -/
theorem C3_recommendation_classifier_contract (edge : ℚ)
    (risk_mode : RiskMode) (stat_type : StatType) :
    (_recommendation_from_edge edge risk_mode stat_type = "Lean Over" ↔
      threshold risk_mode stat_type ≤ edge) ∧
    (_recommendation_from_edge edge risk_mode stat_type = "Lean Under" ↔
      edge ≤ -threshold risk_mode stat_type) ∧
    (_recommendation_from_edge edge risk_mode stat_type = "Stay Away" ↔
      (-threshold risk_mode stat_type < edge ∧
        edge < threshold risk_mode stat_type)) ∧
    threshold risk_mode StatType.assists < threshold risk_mode StatType.kills ∧
    threshold RiskMode.yolo stat_type < threshold RiskMode.standard stat_type ∧
    threshold RiskMode.standard stat_type < threshold RiskMode.safe stat_type := by
  obtain ⟨h1, h2, h3⟩ :=
    rec_ite_characterization edge (threshold risk_mode stat_type)
      (threshold_pos risk_mode stat_type)
  rw [rec_eq_ite]
  refine ⟨h1, h2, h3, ?_, ?_, ?_⟩
  · cases risk_mode <;> simp [threshold] <;> norm_num
  · cases stat_type <;> simp [threshold] <;> norm_num
  · cases stat_type <;> simp [threshold] <;> norm_num

/-- C6: for any player record with consistency in [0,1], the spread is at
least 0.5 (hence strictly positive), so the defensive `spread <= 0`
replacement inside `_edge_score` never fires on estimator outputs and the
edge division is by a strictly positive denominator. -/
theorem C6_spread_floor_guards_division (player : Player)
    (stat_type : StatType) (h0 : 0 ≤ player.consistency)
    (h1 : player.consistency ≤ 1) :
    1/2 ≤ _spread_for_stat player stat_type ∧
    0 < _spread_for_stat player stat_type ∧
    ∀ projection line_value : ℚ,
      _edge_score projection line_value (_spread_for_stat player stat_type) =
        (projection - line_value) / _spread_for_stat player stat_type := by
  have hfloor : 1/2 ≤ _spread_for_stat player stat_type := le_max_left _ _
  have hpos : 0 < _spread_for_stat player stat_type :=
    lt_of_lt_of_le (by norm_num) hfloor
  refine ⟨hfloor, hpos, ?_⟩
  intro projection line_value
  simp only [_edge_score]
  rw [if_neg (not_le.mpr hpos)]

/-- Witness for C6 at a concrete player with consistency 1/2. -/
theorem C6_spread_floor_guards_division_witness :
    1/2 ≤ _spread_for_stat samplePlayer StatType.kills ∧
    0 < _spread_for_stat samplePlayer StatType.kills ∧
    ∀ projection line_value : ℚ,
      _edge_score projection line_value
          (_spread_for_stat samplePlayer StatType.kills) =
        (projection - line_value) /
          _spread_for_stat samplePlayer StatType.kills :=
  C6_spread_floor_guards_division samplePlayer StatType.kills
    (by norm_num [samplePlayer]) (by norm_num [samplePlayer])

/-- C8: a "High" confidence tier (|edge| ≥ 1.5) rules out "Stay Away"
under every posture and category, since 1.5 exceeds every threshold. -/
theorem C8_high_confidence_excludes_stay_away (edge : ℚ)
    (risk_mode : RiskMode) (stat_type : StatType)
    (h : _confidence_from_edge edge = "High") :
    _recommendation_from_edge edge risk_mode stat_type ≠ "Stay Away" := by
  have hm : 3/2 ≤ |edge| := by
    by_contra hn
    simp only [_confidence_from_edge] at h
    rw [if_neg hn] at h
    split_ifs at h <;> simp_all
  have habs : 3/2 ≤ edge ∨ 3/2 ≤ -edge := le_abs.mp hm
  cases risk_mode <;> cases stat_type <;>
    simp only [_recommendation_from_edge] <;>
    rcases habs with he | he <;>
    split_ifs with hb1 hb2 <;> simp_all <;> linarith

/-- Witness for C8 at edge 2 (confidence "High" since |2| ≥ 1.5). -/
theorem C8_high_confidence_excludes_stay_away_witness :
    _recommendation_from_edge 2 RiskMode.safe StatType.kills ≠ "Stay Away" :=
  C8_high_confidence_excludes_stay_away 2 RiskMode.safe StatType.kills
    (by norm_num [_confidence_from_edge, abs_two])

/-- C10: the opening sentence's direction word of the Explanation Composer
is "over" exactly when the projection strictly exceeds the line; on an
exact tie (projection = line) it is "under". -/
theorem C10_direction_word_ties_go_under (player : Player)
    (stat_type : StatType) (line_value projection edge : ℚ)
    (probability_over : ℝ) (recommendation : String) (risk_mode : RiskMode) :
    ((_explain_pick player stat_type line_value projection edge
        probability_over recommendation risk_mode).direction = "over" ↔
      line_value < projection) ∧
    (projection = line_value →
      (_explain_pick player stat_type line_value projection edge
        probability_over recommendation risk_mode).direction = "under") := by
  constructor
  · simp only [_explain_pick]
    split_ifs with h <;> simp [h]
  · intro he
    simp only [_explain_pick]
    rw [if_neg]
    rw [he]
    exact lt_irrefl _

/-- Witness for C10 at an exact tie (projection = line = 5). -/
theorem C10_direction_word_ties_go_under_witness :
    (_explain_pick samplePlayer StatType.kills 5 5 0 (1/2 : ℝ)
      "Stay Away" RiskMode.standard).direction = "under" :=
  (C10_direction_word_ties_go_under samplePlayer StatType.kills 5 5 0
    (1/2 : ℝ) "Stay Away" RiskMode.standard).2 rfl

/-- C7: the probability sentence of the explanation branches on the
recommendation computed from the edge: "Lean Over" cites the Over
probability (×100), "Lean Under" cites 100 minus it as the Under
probability, and "Stay Away" gets the fixed coin-flip sentence with no
probability figure. -/
theorem C7_probability_sentence_branches (player : Player)
    (stat_type : StatType) (line_value projection edge : ℚ)
    (risk_mode : RiskMode) :
    (_recommendation_from_edge edge risk_mode stat_type = "Lean Over" →
      (_explain_pick player stat_type line_value projection edge
        (_edge_to_probability_over (edge : ℝ))
        (_recommendation_from_edge edge risk_mode stat_type)
        risk_mode).prob_text =
        ProbText.overChance (_edge_to_probability_over (edge : ℝ) * 100)) ∧
    (_recommendation_from_edge edge risk_mode stat_type = "Lean Under" →
      (_explain_pick player stat_type line_value projection edge
        (_edge_to_probability_over (edge : ℝ))
        (_recommendation_from_edge edge risk_mode stat_type)
        risk_mode).prob_text =
        ProbText.underChance
          (100 - _edge_to_probability_over (edge : ℝ) * 100)) ∧
    (_recommendation_from_edge edge risk_mode stat_type = "Stay Away" →
      (_explain_pick player stat_type line_value projection edge
        (_edge_to_probability_over (edge : ℝ))
        (_recommendation_from_edge edge risk_mode stat_type)
        risk_mode).prob_text = ProbText.coinFlip) := by
  refine ⟨?_, ?_, ?_⟩ <;> intro h <;> simp [_explain_pick, h]

/-- Witness for C7 at edge 2 under the safe posture (a "Lean Over"). -/
theorem C7_probability_sentence_branches_witness :
    (_explain_pick samplePlayer StatType.kills (41/2) (45/2) 2
      (_edge_to_probability_over ((2 : ℚ) : ℝ))
      (_recommendation_from_edge 2 RiskMode.safe StatType.kills)
      RiskMode.safe).prob_text =
      ProbText.overChance (_edge_to_probability_over ((2 : ℚ) : ℝ) * 100) :=
  (C7_probability_sentence_branches samplePlayer StatType.kills (41/2)
    (45/2) 2 RiskMode.safe).1 (by decide)

/-- The Gaussian integrand `exp (-t²)` is integrable on the line. -/
lemma integrable_exp_neg_sq :
    MeasureTheory.Integrable (fun t : ℝ => Real.exp (-t ^ 2)) := by
  have h := integrable_exp_neg_mul_sq (b := (1:ℝ)) one_pos
  simpa using h

/-- Fact: `exp (-t²)` is interval-integrable between any two bounds. -/
lemma intervalIntegrable_exp_neg_sq (a b : ℝ) :
    IntervalIntegrable (fun t : ℝ => Real.exp (-t ^ 2))
      MeasureTheory.volume a b :=
  integrable_exp_neg_sq.intervalIntegrable

/-- The error function is monotone. -/
lemma erf_mono : Monotone erf := by
  intro x y hxy
  have hsplit := intervalIntegral.integral_add_adjacent_intervals
    (intervalIntegrable_exp_neg_sq 0 x) (intervalIntegrable_exp_neg_sq x y)
  have hnn : 0 ≤ ∫ t in x..y, Real.exp (-t ^ 2) :=
    intervalIntegral.integral_nonneg hxy fun u _ => (Real.exp_pos _).le
  have hcoef : (0:ℝ) ≤ 2 / Real.sqrt Real.pi := by positivity
  unfold erf
  exact mul_le_mul_of_nonneg_left (by linarith) hcoef

/-- The error function is strictly positive on positive inputs. -/
lemma erf_pos_of_pos {x : ℝ} (hx : 0 < x) : 0 < erf x := by
  unfold erf
  have h1 : 0 < ∫ t in (0:ℝ)..x, Real.exp (-t ^ 2) :=
    intervalIntegral.intervalIntegral_pos_of_pos_on
      (intervalIntegrable_exp_neg_sq 0 x) (fun u _ => Real.exp_pos _) hx
  have h2 : 0 < 2 / Real.sqrt Real.pi := by positivity
  exact mul_pos h2 h1

/-- The error function is strictly negative on negative inputs. -/
lemma erf_neg_of_neg {x : ℝ} (hx : x < 0) : erf x < 0 := by
  unfold erf
  have h1 : 0 < ∫ t in x..(0:ℝ), Real.exp (-t ^ 2) :=
    intervalIntegral.intervalIntegral_pos_of_pos_on
      (intervalIntegrable_exp_neg_sq x 0) (fun u _ => Real.exp_pos _) hx
  have hsymm : (∫ t in (0:ℝ)..x, Real.exp (-t ^ 2)) =
      -∫ t in x..(0:ℝ), Real.exp (-t ^ 2) :=
    intervalIntegral.integral_symm x 0
  rw [hsymm]
  have h2 : 0 < 2 / Real.sqrt Real.pi := by positivity
  exact mul_neg_of_pos_of_neg h2 (by linarith)

/-- Fact: `√2 ≤ 3/2`. -/
lemma sqrt_two_le_three_halves : Real.sqrt 2 ≤ 3/2 := by
  rw [show (3:ℝ)/2 = Real.sqrt ((3/2)^2) from (Real.sqrt_sq (by norm_num)).symm]
  exact Real.sqrt_le_sqrt (by norm_num)

/-- The argument `3/√2` fed to `erf` by an edge of 3 is at least 2. -/
lemma two_le_three_div_sqrt_two : 2 ≤ 3 / Real.sqrt 2 := by
  have h0 : 0 < Real.sqrt 2 := Real.sqrt_pos.mpr (by norm_num)
  rw [le_div_iff h0]
  nlinarith [sqrt_two_le_three_halves]

/-- Fact: `(3/√2) · (3/√2) = 9/2`. -/
lemma three_div_sqrt_two_sq :
    3 / Real.sqrt 2 * (3 / Real.sqrt 2) = 9/2 := by
  rw [div_mul_div_comm, Real.mul_self_sqrt (by norm_num : (0:ℝ) ≤ 2)]
  norm_num

/-- Fact: `exp (9/2) ≥ 81`, from `e > 2.7182818283` and `exp (1/2) ≥ 3/2`. -/
lemma exp_nine_halves_ge : (81:ℝ) ≤ Real.exp (9/2) := by
  have h1 : (2.7182818283:ℝ) < Real.exp 1 := Real.exp_one_gt_d9
  have h2 : ((2.7182818283:ℝ))^4 ≤ (Real.exp 1)^4 :=
    pow_le_pow_left (by norm_num) h1.le 4
  have h3 : Real.exp 4 = (Real.exp 1)^4 := by
    rw [show (4:ℝ) = ((4:ℕ):ℝ) * 1 by norm_num, Real.exp_nat_mul]
  have h4 : (54:ℝ) ≤ Real.exp 4 := by
    rw [h3]
    nlinarith
  have h5 : (3/2:ℝ) ≤ Real.exp (1/2) := by
    have := Real.add_one_le_exp (1/2 : ℝ)
    linarith
  have h6 : Real.exp (9/2) = Real.exp 4 * Real.exp (1/2) := by
    rw [← Real.exp_add]
    norm_num
  nlinarith [Real.exp_pos (4:ℝ)]

/-- Gaussian upper tail past `3/√2` is at most `1/162`:
`exp (-t²) ≤ exp (-(c·t))` on the tail and the exponential integrates to
`exp (-c²)/c ≤ (1/81)/2`. -/
lemma gaussian_tail_le :
    (∫ t in Set.Ioi (3 / Real.sqrt 2), Real.exp (-t ^ 2)) ≤ 1/162 := by
  set c := 3 / Real.sqrt 2 with hcdef
  have hc2 : 2 ≤ c := two_le_three_div_sqrt_two
  have hc : 0 < c := by linarith
  have hint : MeasureTheory.IntegrableOn (fun t : ℝ => Real.exp (-(c * t)))
      (Set.Ioi c) := by
    simpa [neg_mul] using exp_neg_integrableOn_Ioi c hc
  have hmono : (∫ t in Set.Ioi c, Real.exp (-t ^ 2)) ≤
      ∫ t in Set.Ioi c, Real.exp (-(c * t)) := by
    apply MeasureTheory.setIntegral_mono_on
      integrable_exp_neg_sq.integrableOn hint measurableSet_Ioi
    intro t ht
    have htc : c < t := ht
    have hct : c * t ≤ t ^ 2 := by nlinarith
    exact Real.exp_le_exp.mpr (by linarith)
  have heval : (∫ t in Set.Ioi c, Real.exp (-(c * t))) =
      Real.exp (-(c * c)) / c := by
    have hderiv : ∀ x ∈ Set.Ici c,
        HasDerivAt (fun t => -Real.exp (-(c * t)) / c)
          (Real.exp (-(c * x))) x := by
      intro x _
      have h1 : HasDerivAt (fun t : ℝ => -(c * t)) (-c) x := by
        simpa using (hasDerivAt_id x).const_mul (-c)
      have h2 : HasDerivAt (fun t : ℝ => Real.exp (-(c * t)))
          (Real.exp (-(c * x)) * (-c)) x := h1.exp
      have h3 := (h2.div_const c).neg
      convert h3 using 1
      · funext t
        ring
      · field_simp
    have htendsto : Filter.Tendsto (fun t => -Real.exp (-(c * t)) / c)
        Filter.atTop (nhds 0) := by
      have hct : Filter.Tendsto (fun t : ℝ => -c * t)
          Filter.atTop Filter.atBot :=
        Filter.tendsto_id.const_mul_atTop_of_neg (by linarith)
      have hexp : Filter.Tendsto (fun t : ℝ => Real.exp (-c * t))
          Filter.atTop (nhds 0) := Real.tendsto_exp_atBot.comp hct
      have := hexp.neg.div_const c
      simpa [neg_mul] using this
    have hres := MeasureTheory.integral_Ioi_of_hasDerivAt_of_tendsto'
      hderiv hint htendsto
    rw [hres]
    field_simp
  have hnum : Real.exp (-(c * c)) / c ≤ 1/162 := by
    rw [three_div_sqrt_two_sq]
    have h81 : (81:ℝ) ≤ Real.exp (9/2) := exp_nine_halves_ge
    have hexp_pos : (0:ℝ) < Real.exp (9/2) := Real.exp_pos _
    have hinv : Real.exp (-(9/2:ℝ)) ≤ 1/81 := by
      rw [Real.exp_neg]
      rw [inv_le (by positivity) (by norm_num)]
      simpa using h81
    calc Real.exp (-(9/2:ℝ)) / c ≤ (1/81) / c := by gcongr
      _ ≤ (1/81) / 2 := by
          apply div_le_div_of_nonneg_left (by norm_num) (by norm_num) hc2
      _ = 1/162 := by norm_num
  linarith

/-- Fact: `erf (3/√2) ≥ 49/50`: the clamp upper bound 0.99 is reached by
edge 3 (and beyond). -/
lemma erf_three_div_sqrt_two_ge : (49:ℝ)/50 ≤ erf (3 / Real.sqrt 2) := by
  set c := 3 / Real.sqrt 2 with hcdef
  have hc2 : 2 ≤ c := two_le_three_div_sqrt_two
  have hc : 0 < c := by linarith
  have hsqrtpi : 1 ≤ Real.sqrt Real.pi := by
    rw [show (1:ℝ) = Real.sqrt 1 from Real.sqrt_one.symm]
    exact Real.sqrt_le_sqrt (by linarith [Real.pi_gt_three])
  have h1 : (∫ t in (0:ℝ)..c, Real.exp (-t ^ 2)) =
      ∫ t in Set.Ioc 0 c, Real.exp (-t ^ 2) :=
    intervalIntegral.integral_of_le hc.le
  have hsplit : (∫ t in Set.Ioi (0:ℝ), Real.exp (-t ^ 2)) =
      (∫ t in Set.Ioc 0 c, Real.exp (-t ^ 2)) +
        ∫ t in Set.Ioi c, Real.exp (-t ^ 2) := by
    rw [← MeasureTheory.setIntegral_union Set.Ioc_disjoint_Ioi_same
      measurableSet_Ioi integrable_exp_neg_sq.integrableOn
      integrable_exp_neg_sq.integrableOn, Set.Ioc_union_Ioi_eq_Ioi hc.le]
  have htotal : (∫ t in Set.Ioi (0:ℝ), Real.exp (-t ^ 2)) =
      Real.sqrt Real.pi / 2 := by
    have h := integral_gaussian_Ioi 1
    simpa using h
  have htail := gaussian_tail_le
  have hquarter : Real.sqrt Real.pi / 2 - 1/162 ≤
      ∫ t in (0:ℝ)..c, Real.exp (-t ^ 2) := by
    rw [h1]
    rw [htotal] at hsplit
    rw [← hcdef] at htail
    linarith
  unfold erf
  have hπpos : 0 < Real.sqrt Real.pi := by positivity
  have hcoef : 0 < 2 / Real.sqrt Real.pi := by positivity
  have hmul := mul_le_mul_of_nonneg_left hquarter hcoef.le
  have hval : 2 / Real.sqrt Real.pi * (Real.sqrt Real.pi / 2 - 1/162) =
      1 - 2 / Real.sqrt Real.pi * (1/162) := by
    field_simp
    ring
  have hbnd : 2 / Real.sqrt Real.pi * (1/162) ≤ 2 * (1/162) := by
    have : 2 / Real.sqrt Real.pi ≤ 2 := div_le_self (by norm_num) hsqrtpi
    nlinarith
  nlinarith

/-- Any edge whose `erf` argument reaches the `49/50` bound gets the
clamped probability exactly `0.99`. -/
lemma prob_eq_99_of_erf_ge {e : ℝ}
    (h : (49:ℝ)/50 ≤ erf (e / Real.sqrt 2)) :
    _edge_to_probability_over e = 99/100 := by
  simp only [_edge_to_probability_over]
  have h1 : (99:ℝ)/100 ≤ 1/2 * (1 + erf (e / Real.sqrt 2)) := by linarith
  rw [min_eq_left h1, max_eq_right (by norm_num : (1:ℝ)/100 ≤ 99/100)]

/-- C2 counterexample: the conversion is NOT strictly increasing — the
clamp makes edges 3 and 4 both map to probability 0.99. -/
theorem C2_strict_monotonicity_counterexample :
    (3:ℝ) < 4 ∧
      _edge_to_probability_over 3 = _edge_to_probability_over 4 := by
  have h3 : (49:ℝ)/50 ≤ erf (3 / Real.sqrt 2) := erf_three_div_sqrt_two_ge
  have h4 : (49:ℝ)/50 ≤ erf (4 / Real.sqrt 2) := by
    refine le_trans h3 (erf_mono ?_)
    gcongr
    norm_num
  exact ⟨by norm_num,
    by rw [prob_eq_99_of_erf_ge h3, prob_eq_99_of_erf_ge h4]⟩

/-- C2 (amended): the probability always lies in [0.01, 0.99] and the
conversion is monotone non-decreasing in edge (strictness fails only
where the clamp saturates). -/
theorem C2_probability_bounds_and_monotone (e1 e2 : ℝ) (h : e1 ≤ e2) :
    1/100 ≤ _edge_to_probability_over e1 ∧
    _edge_to_probability_over e1 ≤ 99/100 ∧
    _edge_to_probability_over e1 ≤ _edge_to_probability_over e2 := by
  unfold _edge_to_probability_over
  refine ⟨le_max_left _ _, max_le (by norm_num) (min_le_left _ _), ?_⟩
  have hm : erf (e1 / Real.sqrt 2) ≤ erf (e2 / Real.sqrt 2) := by
    apply erf_mono
    gcongr
  exact max_le_max le_rfl (min_le_min le_rfl (by linarith))

/-- Witness for C2's amended monotonicity at the pair (0, 1). -/
theorem C2_probability_bounds_and_monotone_witness :
    1/100 ≤ _edge_to_probability_over 0 ∧
    _edge_to_probability_over 0 ≤ 99/100 ∧
    _edge_to_probability_over 0 ≤ _edge_to_probability_over 1 :=
  C2_probability_bounds_and_monotone 0 1 zero_le_one

/-- C9: a "Lean Over" recommendation implies the cited Over probability
exceeds 1/2, and "Lean Under" implies it is below 1/2: the direction of
the lean always agrees with the reported probability. -/
theorem C9_lean_agrees_with_probability (edge : ℚ) (risk_mode : RiskMode)
    (stat_type : StatType) :
    (_recommendation_from_edge edge risk_mode stat_type = "Lean Over" →
      1/2 < _edge_to_probability_over (edge : ℝ)) ∧
    (_recommendation_from_edge edge risk_mode stat_type = "Lean Under" →
      _edge_to_probability_over (edge : ℝ) < 1/2) := by
  obtain ⟨ho, hu, _⟩ := rec_ite_characterization edge
    (threshold risk_mode stat_type) (threshold_pos risk_mode stat_type)
  rw [rec_eq_ite]
  constructor
  · intro h
    have he : threshold risk_mode stat_type ≤ edge := ho.mp h
    have hepos : (0:ℚ) < edge :=
      lt_of_lt_of_le (threshold_pos risk_mode stat_type) he
    have herpos : (0:ℝ) < (edge : ℝ) := by exact_mod_cast hepos
    have hz : 0 < (edge : ℝ) / Real.sqrt 2 := by positivity
    have herf : 0 < erf ((edge : ℝ) / Real.sqrt 2) := erf_pos_of_pos hz
    unfold _edge_to_probability_over
    have hp : (1:ℝ)/2 < 1/2 * (1 + erf ((edge : ℝ) / Real.sqrt 2)) := by
      linarith
    have hmin : (1:ℝ)/2 <
        min (99/100) (1/2 * (1 + erf ((edge : ℝ) / Real.sqrt 2))) :=
      lt_min (by norm_num) hp
    exact lt_of_lt_of_le hmin (le_max_right _ _)
  · intro h
    have he : edge ≤ -threshold risk_mode stat_type := hu.mp h
    have heneg : edge < 0 :=
      lt_of_le_of_lt he (by linarith [threshold_pos risk_mode stat_type])
    have herneg : ((edge : ℝ)) < 0 := by exact_mod_cast heneg
    have hz : (edge : ℝ) / Real.sqrt 2 < 0 :=
      div_neg_of_neg_of_pos herneg (by positivity)
    have herf : erf ((edge : ℝ) / Real.sqrt 2) < 0 := erf_neg_of_neg hz
    unfold _edge_to_probability_over
    have hp : (1:ℝ)/2 * (1 + erf ((edge : ℝ) / Real.sqrt 2)) < 1/2 := by
      linarith
    have hmin : min ((99:ℝ)/100)
        (1/2 * (1 + erf ((edge : ℝ) / Real.sqrt 2))) < 1/2 :=
      lt_of_le_of_lt (min_le_right _ _) hp
    exact max_lt (by norm_num) hmin

/-- Witness for C9 at edge 2 under the safe posture (a "Lean Over"). -/
theorem C9_lean_agrees_with_probability_witness :
    1/2 < _edge_to_probability_over ((2 : ℚ) : ℝ) :=
  (C9_lean_agrees_with_probability 2 RiskMode.safe StatType.kills).1
    (by decide)

/-- Emitting two picks per player yields a list of twice the length. -/
lemma length_flatMap_pair {α β : Type} (l : List α) (f g : α → β) :
    (l.flatMap fun a => [f a, g a]).length = 2 * l.length := by
  induction l with
  | nil => simp
  | cons a t ih =>
      simp only [List.flatMap_cons, List.length_append, ih, List.length_cons,
        List.length_nil]
      ring

/-- C4: the assembler yields exactly two picks per input player under
every posture (no filtering), and the output is sorted descending by
absolute edge: every adjacent pair satisfies `|edge i| ≥ |edge (i+1)|`. -/
theorem C4_assembler_length_and_sorted (players : List Player)
    (risk_mode : RiskMode) :
    (build_picks players risk_mode).length = 2 * players.length ∧
    (build_picks players risk_mode).Chain'
      fun a b => |b.edge| ≤ |a.edge| := by
  constructor
  · simp only [build_picks]
    rw [List.length_mergeSort]
    exact length_flatMap_pair players _ _
  · simp only [build_picks]
    have hp := @List.sorted_mergeSort PickResult
      (fun a b : PickResult => decide (|b.edge| ≤ |a.edge|))
      (by
        intro a b c hab hbc
        simp only [decide_eq_true_eq] at *
        exact le_trans hbc hab)
      (by
        intro a b
        simpa [Bool.or_eq_true, decide_eq_true_eq] using
          le_total |b.edge| |a.edge|)
      (players.flatMap fun player =>
        [mk_pick player StatType.kills risk_mode,
         mk_pick player StatType.assists risk_mode])
    have hp' := hp.imp fun {a b} h => of_decide_eq_true h
    exact hp'.chain'

/-- The consistency score of every built player lies in [0,1] and the
maps-played count is at least 1, by construction (`max`/`min` clamps). -/
lemma build_player_from_row_clamps (row : Row) :
    0 ≤ (build_player_from_row row).consistency ∧
    (build_player_from_row row).consistency ≤ 1 ∧
    1 ≤ (build_player_from_row row).maps_played := by
  refine ⟨le_max_left _ _, max_le (by norm_num) (min_le_left _ _),
    le_max_left _ _⟩

/-- C5 (code bug): a raw KAST of "150%" parses to 1.5, which
`build_players_from_stats` stores unclamped — violating the documented
`0–1` range for `kast` — while consistency and maps-played do satisfy
their clamps on the same record. -/
theorem C5_kast_unclamped_at_150_percent :
    build_players_from_stats [row150] = [build_player_from_row row150] ∧
    (build_player_from_row row150).kast = 3/2 ∧
    ¬ (build_player_from_row row150).kast ≤ 1 ∧
    0 ≤ (build_player_from_row row150).consistency ∧
    (build_player_from_row row150).consistency ≤ 1 ∧
    1 ≤ (build_player_from_row row150).maps_played := by
  obtain ⟨hc0, hc1, hm⟩ := build_player_from_row_clamps row150
  have hkast : (build_player_from_row row150).kast = 3/2 := by
    simp only [build_player_from_row, _parse_kast, row150]
    norm_num
  refine ⟨?_, hkast, ?_, hc0, hc1, hm⟩
  · simp [build_players_from_stats, List.mergeSort]
  · rw [hkast]
    norm_num
